import Mathlib

/-!
Verification of the Realtor Suite agent engine
(`src/realtor-suite-agent.py`).

The source is a single Python class `RealtorAgent` holding an Anthropic
client, an in-memory `conversation_history`, and a static list of tool
schemas (`_register_tools`).  Its `chat` method appends the user message
to the history, issues one request to the remote chat-completion API,
appends the assistant reply, extracts text and `tool_use` blocks from the
reply, and runs the stub `_execute_tool` once per `tool_use` block.

The embedding below renders the Python dict/list/str literals as a `Json`
inductive, the agent as a structure, and `chat` as a pure function from
the agent state, the user message, the optional context, the remote
model (a function from requests to responses) and a clock (the successive
values returned by `datetime.now()` during the call) to the new agent
state, the returned dictionary and the list of external calls performed.
-/

namespace RealtorSuite

/-- JSON values: the shape of the Python dict / list / str / number /
bool literals that the agent builds and passes around. -/
inductive Json where
  | null : Json
  | bool : Bool → Json
  | num : Int → Json
  | str : String → Json
  | arr : List Json → Json
  | obj : List (String × Json) → Json

/-- Dictionary access `j[k]`: the value of key `k` when `j` is an object
that has it. -/
def Json.get (j : Json) (k : String) : Option Json :=
  match j with
  | .obj fields => fields.lookup k
  | _ => none

/-- The dictionary returned by `RealtorAgent._execute_tool` (lines
599-605 of the source): `success`, `tool`, `input`, `message`,
`timestamp`. -/
structure ToolResult where
  success : Bool
  tool : String
  input : Json
  message : String
  timestamp : String

/-- `RealtorAgent._execute_tool` (source lines 583-605): the stub ignores
the context and the registry, and unconditionally returns the mock
success record, echoing the tool name and input.  `now` is the value of
`datetime.now().isoformat()` at the call. -/
def executeTool (tool_name : String) (tool_input : Json)
    (context : Option Json) (now : String) : ToolResult :=
  { success := true
    tool := tool_name
    input := tool_input
    message := "Successfully executed " ++ tool_name
    timestamp := now }

/-- A content block of a model response: a `text` block or a `tool_use`
block carrying an id, a tool name and a tool input (source lines
551-559 read exactly these fields). -/
inductive ContentBlock where
  | text : String → ContentBlock
  | tool_use : (id : String) → (name : String) → (input : Json) → ContentBlock

/-- The content of a transcript entry: the user turns carry a plain
string (line 509-512), the assistant turns carry the response block list
(lines 541-544). -/
inductive MessageContent where
  | str : String → MessageContent
  | blocks : List ContentBlock → MessageContent

/-- One entry of `conversation_history`: a role tag and a content. -/
structure Message where
  role : String
  content : MessageContent

/-- The response of the remote chat-completion API: content blocks and a
stop reason (the source reads `response.content` and
`response.stop_reason`). -/
structure ModelResponse where
  content : List ContentBlock
  stop_reason : String

/-- The request sent by `client.messages.create` (source lines 532-538):
model, max_tokens, system prompt, message history, tool catalog. -/
structure Request where
  model : String
  max_tokens : Nat
  system : String
  messages : List Message
  tools : List Json

/-- The Anthropic client object: constructed once from the api key and
only used to send requests. -/
structure Anthropic where
  api_key : String

/-- The block extracted into the `tool_uses` list of the return value
(source lines 555-559): `id`, `name`, `input`. -/
structure ToolUse where
  id : String
  name : String
  input : Json

/-- One entry of the returned `tool_results` list (source lines
570-574): `tool_use_id`, `name`, `result`. -/
structure ToolResultRecord where
  tool_use_id : String
  name : String
  result : ToolResult

/-- The dictionary returned by `chat` (source lines 576-581). -/
structure ChatReturn where
  message : String
  tool_uses : List ToolUse
  tool_results : List ToolResultRecord
  stop_reason : String

/-- An external call made during `chat`: the one request to the remote
model, or one invocation of the `_execute_tool` stub (which performs no
I/O of its own). -/
inductive Event where
  | modelCall : Request → Event
  | toolExec : (name : String) → (input : Json) → Event

/-- The system prompt of `chat` (source lines 515-529); `date` is
`datetime.now().strftime` of the current date. -/
def systemPrompt (date : String) : String :=
  "You are an AI assistant for real estate professionals in India.

You help realtors with:
- Posting properties to 99acres, MagicBricks, Google My Business
- Creating marketing campaigns on WhatsApp, Facebook, Instagram, Google Ads
- Managing and qualifying leads
- Matching properties to buyers
- Scheduling site visits
- Generating analytics and reports

When a user asks you to do something, use the appropriate tools. Always confirm actions before executing expensive operations (like creating paid ads).

Be conversational, helpful, and proactive. If you need more information, ask clarifying questions.

Current date: " ++ date

/-- `RealtorAgent._register_tools` (source lines 41-494): the fixed
catalog of fourteen tool schemas, translated dict-for-dict. -/
def registerTools : List Json :=
  [ -- PROPERTY PORTALS
    .obj
      [("name", .str "post_to_99acres"),
       ("description", .str "Post a property listing to 99acres.com. Automatically generates SEO-optimized description and schedules posting."),
       ("input_schema", .obj
         [("type", .str "object"),
          ("properties", .obj
            [("property_type", .obj
               [("type", .str "string"),
                ("enum", .arr [.str "apartment", .str "villa", .str "plot", .str "commercial"]),
                ("description", .str "Type of property")]),
             ("bhk", .obj
               [("type", .str "integer"),
                ("description", .str "Number of bedrooms (1-5)")]),
             ("location", .obj
               [("type", .str "string"),
                ("description", .str "Property location (e.g., 'Hinjewadi, Pune')")]),
             ("price", .obj
               [("type", .str "number"),
                ("description", .str "Price in INR")]),
             ("area_sqft", .obj
               [("type", .str "integer"),
                ("description", .str "Area in square feet")]),
             ("amenities", .obj
               [("type", .str "array"),
                ("items", .obj [("type", .str "string")]),
                ("description", .str "List of amenities (e.g., ['parking', 'gym', 'pool'])")]),
             ("images", .obj
               [("type", .str "array"),
                ("items", .obj [("type", .str "string")]),
                ("description", .str "Array of image URLs")]),
             ("description", .obj
               [("type", .str "string"),
                ("description", .str "Property description (AI will enhance if needed)")])]),
          ("required", .arr [.str "property_type", .str "location", .str "price"])])],
    .obj
      [("name", .str "post_to_magicbricks"),
       ("description", .str "Post a property listing to MagicBricks.com with optimized visibility settings."),
       ("input_schema", .obj
         [("type", .str "object"),
          ("properties", .obj
            [("property_data", .obj
               [("type", .str "object"),
                ("description", .str "Property details (same format as 99acres)")]),
             ("boost_listing", .obj
               [("type", .str "boolean"),
                ("description", .str "Whether to boost listing for better visibility")])]),
          ("required", .arr [.str "property_data"])])],
    .obj
      [("name", .str "update_google_my_business"),
       ("description", .str "Create or update a post on Google My Business for a property listing."),
       ("input_schema", .obj
         [("type", .str "object"),
          ("properties", .obj
            [("business_id", .obj
               [("type", .str "string"),
                ("description", .str "Google My Business location ID")]),
             ("post_type", .obj
               [("type", .str "string"),
                ("enum", .arr [.str "OFFER", .str "EVENT", .str "PRODUCT"]),
                ("description", .str "Type of GMB post")]),
             ("content", .obj
               [("type", .str "string"),
                ("description", .str "Post content")]),
             ("images", .obj
               [("type", .str "array"),
                ("items", .obj [("type", .str "string")]),
                ("description", .str "Image URLs")]),
             ("call_to_action", .obj
               [("type", .str "string"),
                ("enum", .arr [.str "BOOK", .str "CALL", .str "LEARN_MORE", .str "SIGN_UP"]),
                ("description", .str "CTA button")])]),
          ("required", .arr [.str "business_id", .str "content"])])],
    -- SOCIAL MEDIA MARKETING
    .obj
      [("name", .str "send_whatsapp_campaign"),
       ("description", .str "Send a WhatsApp campaign to a list of contacts using approved templates."),
       ("input_schema", .obj
         [("type", .str "object"),
          ("properties", .obj
            [("template_name", .obj
               [("type", .str "string"),
                ("description", .str "Name of approved WhatsApp template")]),
             ("recipients", .obj
               [("type", .str "array"),
                ("items", .obj [("type", .str "string")]),
                ("description", .str "Phone numbers with country code (e.g., ['+919876543210'])")]),
             ("variables", .obj
               [("type", .str "object"),
                ("description", .str "Template variables (e.g., \x7b'name': 'John', 'property': '3BHK'\x7d)")]),
             ("property_id", .obj
               [("type", .str "string"),
                ("description", .str "Property ID to track campaign")])]),
          ("required", .arr [.str "template_name", .str "recipients"])])],
    .obj
      [("name", .str "create_facebook_ad"),
       ("description", .str "Create a Facebook ad campaign for a property listing. Automatically targets relevant audience."),
       ("input_schema", .obj
         [("type", .str "object"),
          ("properties", .obj
            [("campaign_name", .obj
               [("type", .str "string"),
                ("description", .str "Campaign name")]),
             ("property_id", .obj
               [("type", .str "string"),
                ("description", .str "Property ID to promote")]),
             ("budget", .obj
               [("type", .str "number"),
                ("description", .str "Daily budget in INR")]),
             ("duration_days", .obj
               [("type", .str "integer"),
                ("description", .str "Campaign duration in days")]),
             ("target_audience", .obj
               [("type", .str "object"),
                ("properties", .obj
                  [("age_min", .obj [("type", .str "integer")]),
                   ("age_max", .obj [("type", .str "integer")]),
                   ("locations", .obj
                     [("type", .str "array"),
                      ("items", .obj [("type", .str "string")])]),
                   ("interests", .obj
                     [("type", .str "array"),
                      ("items", .obj [("type", .str "string")])])])]),
             ("ad_creative", .obj
               [("type", .str "object"),
                ("properties", .obj
                  [("headline", .obj [("type", .str "string")]),
                   ("body", .obj [("type", .str "string")]),
                   ("image_url", .obj [("type", .str "string")]),
                   ("cta", .obj [("type", .str "string")])])])]),
          ("required", .arr [.str "campaign_name", .str "property_id", .str "budget"])])],
    .obj
      [("name", .str "post_to_instagram"),
       ("description", .str "Create an Instagram post or story for a property listing."),
       ("input_schema", .obj
         [("type", .str "object"),
          ("properties", .obj
            [("post_type", .obj
               [("type", .str "string"),
                ("enum", .arr [.str "feed", .str "story", .str "reel"]),
                ("description", .str "Type of Instagram post")]),
             ("property_id", .obj
               [("type", .str "string"),
                ("description", .str "Property ID")]),
             ("caption", .obj
               [("type", .str "string"),
                ("description", .str "Post caption with hashtags")]),
             ("media_urls", .obj
               [("type", .str "array"),
                ("items", .obj [("type", .str "string")]),
                ("description", .str "Image or video URLs")]),
             ("tags", .obj
               [("type", .str "array"),
                ("items", .obj [("type", .str "string")]),
                ("description", .str "Hashtags (without #)")])]),
          ("required", .arr [.str "post_type", .str "property_id", .str "media_urls"])])],
    -- PAID ADVERTISING
    .obj
      [("name", .str "create_google_ad"),
       ("description", .str "Create a Google Search or Display ad campaign for property listing."),
       ("input_schema", .obj
         [("type", .str "object"),
          ("properties", .obj
            [("campaign_name", .obj
               [("type", .str "string"),
                ("description", .str "Campaign name")]),
             ("campaign_type", .obj
               [("type", .str "string"),
                ("enum", .arr [.str "search", .str "display"]),
                ("description", .str "Ad type")]),
             ("keywords", .obj
               [("type", .str "array"),
                ("items", .obj [("type", .str "string")]),
                ("description", .str "Target keywords (for search ads)")]),
             ("ad_copy", .obj
               [("type", .str "object"),
                ("properties", .obj
                  [("headline_1", .obj [("type", .str "string")]),
                   ("headline_2", .obj [("type", .str "string")]),
                   ("description", .obj [("type", .str "string")]),
                   ("display_url", .obj [("type", .str "string")])])]),
             ("landing_page", .obj
               [("type", .str "string"),
                ("description", .str "Landing page URL")]),
             ("budget", .obj
               [("type", .str "number"),
                ("description", .str "Daily budget in INR")]),
             ("target_location", .obj
               [("type", .str "string"),
                ("description", .str "Geographic targeting (e.g., 'Pune, India')")])]),
          ("required", .arr [.str "campaign_name", .str "campaign_type", .str "budget"])])],
    -- LEAD MANAGEMENT
    .obj
      [("name", .str "qualify_lead"),
       ("description", .str "Automatically qualify a lead by asking questions and scoring responses."),
       ("input_schema", .obj
         [("type", .str "object"),
          ("properties", .obj
            [("lead_id", .obj
               [("type", .str "string"),
                ("description", .str "Lead ID")]),
             ("lead_data", .obj
               [("type", .str "object"),
                ("properties", .obj
                  [("name", .obj [("type", .str "string")]),
                   ("phone", .obj [("type", .str "string")]),
                   ("email", .obj [("type", .str "string")]),
                   ("source", .obj [("type", .str "string")]),
                   ("interested_in", .obj [("type", .str "string")])])]),
             ("qualification_criteria", .obj
               [("type", .str "object"),
                ("properties", .obj
                  [("budget_range", .obj [("type", .str "string")]),
                   ("timeline", .obj [("type", .str "string")]),
                   ("location_preference", .obj [("type", .str "string")])])])]),
          ("required", .arr [.str "lead_id", .str "lead_data"])])],
    .obj
      [("name", .str "match_properties_to_buyer"),
       ("description", .str "Find and match properties from database that match buyer's criteria."),
       ("input_schema", .obj
         [("type", .str "object"),
          ("properties", .obj
            [("buyer_criteria", .obj
               [("type", .str "object"),
                ("properties", .obj
                  [("budget_min", .obj [("type", .str "number")]),
                   ("budget_max", .obj [("type", .str "number")]),
                   ("locations", .obj
                     [("type", .str "array"),
                      ("items", .obj [("type", .str "string")])]),
                   ("bhk", .obj [("type", .str "integer")]),
                   ("property_type", .obj [("type", .str "string")]),
                   ("must_have_amenities", .obj
                     [("type", .str "array"),
                      ("items", .obj [("type", .str "string")])])]),
                ("required", .arr [.str "budget_min", .str "budget_max"])]),
             ("max_results", .obj
               [("type", .str "integer"),
                ("description", .str "Maximum properties to return (default 5)")])]),
          ("required", .arr [.str "buyer_criteria"])])],
    .obj
      [("name", .str "schedule_site_visit"),
       ("description", .str "Schedule a site visit for a lead and send calendar invites."),
       ("input_schema", .obj
         [("type", .str "object"),
          ("properties", .obj
            [("lead_id", .obj [("type", .str "string")]),
             ("property_id", .obj [("type", .str "string")]),
             ("visit_date", .obj
               [("type", .str "string"),
                ("description", .str "ISO format date (YYYY-MM-DD)")]),
             ("visit_time", .obj
               [("type", .str "string"),
                ("description", .str "Time in HH:MM format")]),
             ("send_reminders", .obj
               [("type", .str "boolean"),
                ("description", .str "Send WhatsApp reminders 24h and 1h before")])]),
          ("required", .arr [.str "lead_id", .str "property_id", .str "visit_date", .str "visit_time"])])],
    .obj
      [("name", .str "send_property_brochure"),
       ("description", .str "Generate and send a property brochure via WhatsApp or email."),
       ("input_schema", .obj
         [("type", .str "object"),
          ("properties", .obj
            [("property_id", .obj [("type", .str "string")]),
             ("recipient_phone", .obj [("type", .str "string")]),
             ("recipient_email", .obj [("type", .str "string")]),
             ("delivery_method", .obj
               [("type", .str "string"),
                ("enum", .arr [.str "whatsapp", .str "email", .str "both"])]),
             ("include_floor_plan", .obj [("type", .str "boolean")]),
             ("include_location_map", .obj [("type", .str "boolean")])]),
          ("required", .arr [.str "property_id"])])],
    -- ANALYTICS
    .obj
      [("name", .str "generate_performance_report"),
       ("description", .str "Generate a comprehensive performance report for campaigns, listings, or overall business."),
       ("input_schema", .obj
         [("type", .str "object"),
          ("properties", .obj
            [("report_type", .obj
               [("type", .str "string"),
                ("enum", .arr [.str "campaign", .str "listing", .str "overall", .str "roi"]),
                ("description", .str "Type of report")]),
             ("time_period", .obj
               [("type", .str "string"),
                ("enum", .arr [.str "today", .str "week", .str "month", .str "quarter", .str "year"]),
                ("description", .str "Time period for report")]),
             ("entity_id", .obj
               [("type", .str "string"),
                ("description", .str "Campaign ID or Property ID (if specific report)")]),
             ("metrics", .obj
               [("type", .str "array"),
                ("items", .obj [("type", .str "string")]),
                ("description", .str "Metrics to include (e.g., ['reach', 'conversions', 'roi'])")])]),
          ("required", .arr [.str "report_type", .str "time_period"])])],
    .obj
      [("name", .str "track_lead_source"),
       ("description", .str "Track and attribute lead sources to measure marketing effectiveness."),
       ("input_schema", .obj
         [("type", .str "object"),
          ("properties", .obj
            [("lead_id", .obj [("type", .str "string")]),
             ("source", .obj
               [("type", .str "string"),
                ("enum", .arr [.str "99acres", .str "magicbricks", .str "facebook", .str "instagram", .str "google_ads", .str "whatsapp", .str "referral", .str "direct"])]),
             ("source_details", .obj
               [("type", .str "object"),
                ("description", .str "Additional source info (campaign_id, ad_id, etc.)")])]),
          ("required", .arr [.str "lead_id", .str "source"])])],
    .obj
      [("name", .str "calculate_campaign_roi"),
       ("description", .str "Calculate ROI for a specific marketing campaign."),
       ("input_schema", .obj
         [("type", .str "object"),
          ("properties", .obj
            [("campaign_id", .obj [("type", .str "string")]),
             ("total_spent", .obj [("type", .str "number")]),
             ("leads_generated", .obj [("type", .str "integer")]),
             ("conversions", .obj [("type", .str "integer")]),
             ("revenue_generated", .obj [("type", .str "number")])]),
          ("required", .arr [.str "campaign_id"])])]]

/-- The `RealtorAgent` state: the client, the in-memory transcript and
the registered tool catalog (source lines 36-39). -/
structure RealtorAgent where
  client : Anthropic
  conversation_history : List Message
  tools : List Json

/-- `RealtorAgent.__init__` (source lines 36-39): builds the client from
the api key, starts with an empty transcript, and registers the tools. -/
def RealtorAgent.init (anthropic_api_key : String) : RealtorAgent :=
  { client := { api_key := anthropic_api_key }
    conversation_history := []
    tools := registerTools }

/-- One step of the block loop of `chat` (source lines 551-559): a text
block is appended to `text_response`, a `tool_use` block is appended to
`tool_uses`. -/
def processBlock (acc : String × List ToolUse) (block : ContentBlock) :
    String × List ToolUse :=
  match block with
  | .text s => (acc.1 ++ s, acc.2)
  | .tool_use id name input => (acc.1, acc.2 ++ [{ id := id, name := name, input := input }])

/-- The whole block loop of `chat`: fold `processBlock` over the
response content, starting from the empty string and the empty list. -/
def processBlocks (blocks : List ContentBlock) : String × List ToolUse :=
  blocks.foldl processBlock ("", [])

/-- The tool-execution loop of `chat` (source lines 562-574): one
`_execute_tool` call per extracted `tool_use`, in order, pairing each
result with the id and name of its block.  `k` numbers the
`datetime.now()` invocations inside this `chat` call, so each execution
stamps its own clock reading. -/
def runTools (context : Option Json) (clock : Nat → String) :
    Nat → List ToolUse → List ToolResultRecord
  | _, [] => []
  | k, tu :: rest =>
      { tool_use_id := tu.id
        name := tu.name
        result := executeTool tu.name tu.input context (clock k) }
      :: runTools context clock (k + 1) rest

/-- The request `chat` passes to `client.messages.create` (source lines
532-538): the fixed model and max_tokens, the system prompt with the
date read from the clock, the history with the user message already
appended, and the registered tools. -/
def chatRequest (self : RealtorAgent) (user_message : String)
    (clock : Nat → String) : Request :=
  { model := "claude-sonnet-4-20250514"
    max_tokens := 4096
    system := systemPrompt (clock 0)
    messages := self.conversation_history ++ [{ role := "user", content := .str user_message }]
    tools := self.tools }

/-- Everything a `chat` call produces: the agent state after the call,
the returned dictionary, and the external calls made along the way. -/
structure ChatOutcome where
  agent : RealtorAgent
  ret : ChatReturn
  calls : List Event

/-- `RealtorAgent.chat` (source lines 496-581).  `remote` is the hosted
model (the response `client.messages.create` returns for a request) and
`clock` the successive `datetime.now()` readings of this call (reading 0
is taken for the system prompt date, reading `1 + i` by the i-th tool
execution).  The method appends the user message, sends one request,
appends the assistant reply, extracts text and tool uses, executes each
tool stub, and returns the result dictionary. -/
def RealtorAgent.chat (self : RealtorAgent) (user_message : String)
    (context : Option Json) (remote : Request → ModelResponse)
    (clock : Nat → String) : ChatOutcome :=
  let request := chatRequest self user_message clock
  let response := remote request
  let pb := processBlocks response.content
  let tool_results := runTools context clock 1 pb.2
  { agent :=
      { self with
        conversation_history :=
          request.messages ++ [{ role := "assistant", content := .blocks response.content }] }
    ret :=
      { message := pb.1
        tool_uses := pb.2
        tool_results := tool_results
        stop_reason := response.stop_reason }
    calls :=
      Event.modelCall request :: pb.2.map (fun tu => Event.toolExec tu.name tu.input) }

/-! Specification-side views of the response content and the call trace,
used to state the claims. -/

/-- The text carried by a `text` block. -/
def textOf : ContentBlock → Option String
  | .text s => some s
  | .tool_use _ _ _ => none

/-- The `ToolUse` record carried by a `tool_use` block. -/
def toolUseOf : ContentBlock → Option ToolUse
  | .text _ => none
  | .tool_use id name input => some { id := id, name := name, input := input }

/-- Whether a block is a `tool_use` block. -/
def isToolUseBlock : ContentBlock → Bool
  | .text _ => false
  | .tool_use _ _ _ => true

/-- The concatenation, in order, of the text carried by the `text`
blocks of a response. -/
def textConcat : List ContentBlock → String
  | [] => ""
  | .text s :: rest => s ++ textConcat rest
  | .tool_use _ _ _ :: rest => textConcat rest

/-- Whether an event is the outbound call to the remote model. -/
def isModelCall : Event → Bool
  | .modelCall _ => true
  | .toolExec _ _ => false

/-- Whether an event is an invocation of the `_execute_tool` stub. -/
def isToolExec : Event → Bool
  | .modelCall _ => false
  | .toolExec _ _ => true

/-- The `name` field of a tool-schema dictionary. -/
def toolName (t : Json) : Option String :=
  match t.get "name" with
  | some (.str s) => some s
  | _ => none

/-- The names declared by the registered tool catalog. -/
def registeredToolNames : List String :=
  registerTools.filterMap toolName

/-! The JSON-Schema well-formedness check behind claim C7. -/

/-- The elements of a JSON array when they are all strings. -/
def allStrings : List Json → Option (List String)
  | [] => some []
  | .str s :: rest => (allStrings rest).map (fun ss => s :: ss)
  | _ :: _ => none

/-- The keys of the `properties` map declared by an object schema. -/
def propertyKeys (fields : List (String × Json)) : List String :=
  match fields.lookup "properties" with
  | some (.obj props) => props.map (fun p => p.1)
  | _ => []

/-- When an object schema declares `required`, it is an array of strings
each of which is a key of its `properties` map. -/
def requiredOk (fields : List (String × Json)) : Bool :=
  match fields.lookup "required" with
  | none => true
  | some (.arr req) =>
      match allStrings req with
      | some names => names.all (fun r => (propertyKeys fields).contains r)
      | none => false
  | some _ => false

/-- When an object schema declares `enum`, it is a non-empty array of
pairwise-distinct strings. -/
def enumOk (fields : List (String × Json)) : Bool :=
  match fields.lookup "enum" with
  | none => true
  | some (.arr es) =>
      match allStrings es with
      | some vals => !vals.isEmpty && decide vals.Nodup
      | none => false
  | some _ => false

mutual

/-- The recursive schema check: every object reachable inside the value
satisfies `requiredOk` and `enumOk`. -/
def schemaOk : Json → Bool
  | Json.obj fields => requiredOk fields && enumOk fields && schemaFieldsOk fields
  | Json.arr xs => schemaListOk xs
  | Json.null => true
  | Json.bool _ => true
  | Json.num _ => true
  | Json.str _ => true

/-- `schemaOk` on every value of a field list. -/
def schemaFieldsOk : List (String × Json) → Bool
  | [] => true
  | (_, v) :: rest => schemaOk v && schemaFieldsOk rest

/-- `schemaOk` on every element of an array. -/
def schemaListOk : List Json → Bool
  | [] => true
  | x :: rest => schemaOk x && schemaListOk rest

end

/-- A valid tool schema: a string `name`, a string `description`, and an
`input_schema` whose `type` is `"object"` and which passes the recursive
`required` / `enum` check at every level. -/
def toolValid (t : Json) : Bool :=
  match t.get "name", t.get "description", t.get "input_schema" with
  | some (.str _), some (.str _), some schema =>
      (match schema.get "type" with
       | some (.str ty) => ty == "object"
       | _ => false)
      && schemaOk schema
  | _, _, _ => false

/-! Helper lemmas about the block loop and the tool loop. -/

/-- The block loop of `chat`, from an arbitrary accumulator: it appends
the concatenated text and the extracted tool uses. -/
theorem foldl_processBlock (blocks : List ContentBlock) (t : String) (us : List ToolUse) :
    blocks.foldl processBlock (t, us)
      = (t ++ textConcat blocks, us ++ blocks.filterMap toolUseOf) := by
  induction blocks generalizing t us with
  | nil => simp [textConcat]
  | cons b rest ih =>
    cases b with
    | text s =>
      simp [processBlock, textConcat, toolUseOf, ih, String.append_assoc]
    | tool_use id name input =>
      simp [processBlock, textConcat, toolUseOf, ih]

/-- The block loop of `chat` computes the concatenated text and the
list of tool uses in response order. -/
theorem processBlocks_eq (blocks : List ContentBlock) :
    processBlocks blocks = (textConcat blocks, blocks.filterMap toolUseOf) := by
  simpa [String.empty_append] using foldl_processBlock blocks "" []

/-- The tool loop pairs each result with the id of its block. -/
theorem runTools_map_id (ctx : Option Json) (clock : Nat → String) (us : List ToolUse) :
    ∀ k, (runTools ctx clock k us).map (fun r => r.tool_use_id)
      = us.map (fun tu => tu.id) := by
  induction us with
  | nil => intro k; rfl
  | cons tu rest ih => intro k; simp [runTools, ih]

/-- The tool loop pairs each result with the name of its block. -/
theorem runTools_map_name (ctx : Option Json) (clock : Nat → String) (us : List ToolUse) :
    ∀ k, (runTools ctx clock k us).map (fun r => r.name)
      = us.map (fun tu => tu.name) := by
  induction us with
  | nil => intro k; rfl
  | cons tu rest ih => intro k; simp [runTools, ih]

/-- The tool loop produces one record per tool use. -/
theorem runTools_length (ctx : Option Json) (clock : Nat → String) (us : List ToolUse) :
    ∀ k, (runTools ctx clock k us).length = us.length := by
  induction us with
  | nil => intro k; rfl
  | cons tu rest ih => intro k; simp [runTools, ih]

/-- Extraction finds exactly one tool use per `tool_use` block. -/
theorem length_filterMap_toolUseOf (blocks : List ContentBlock) :
    (blocks.filterMap toolUseOf).length = blocks.countP isToolUseBlock := by
  induction blocks with
  | nil => rfl
  | cons b rest ih =>
    cases b <;> simp [toolUseOf, isToolUseBlock, List.countP_cons, ih]

/-- Mapping tool uses to `toolExec` events yields no model call. -/
theorem countP_isModelCall_toolExecs (us : List ToolUse) :
    (us.map (fun tu => Event.toolExec tu.name tu.input)).countP isModelCall = 0 := by
  induction us with
  | nil => rfl
  | cons tu rest ih => simp [isModelCall, List.countP_cons, ih]

/-- Mapping tool uses to `toolExec` events yields one event each. -/
theorem countP_isToolExec_toolExecs (us : List ToolUse) :
    (us.map (fun tu => Event.toolExec tu.name tu.input)).countP isToolExec = us.length := by
  induction us with
  | nil => rfl
  | cons tu rest ih => simp [isToolExec, List.countP_cons, ih]

/-! The claims. -/

/-- C1: for every tool name, every tool input, every context and every
clock reading, `_execute_tool` returns a result whose `success` field is
`True`; the stub is total, takes no error branch, and never reports
failure. -/
theorem execute_tool_always_success (tool_name : String) (tool_input : Json)
    (context : Option Json) (now : String) :
    (executeTool tool_name tool_input context now).success = true := rfl

/-- C2: the result of `_execute_tool` echoes its arguments back
unchanged — the `tool` field is the given tool name and the `input`
field the given tool input — alongside the success flag and the
acknowledgment message built from the name. -/
theorem execute_tool_echoes_arguments (tool_name : String) (tool_input : Json)
    (context : Option Json) (now : String) :
    (executeTool tool_name tool_input context now).tool = tool_name
    ∧ (executeTool tool_name tool_input context now).input = tool_input
    ∧ (executeTool tool_name tool_input context now).success = true
    ∧ (executeTool tool_name tool_input context now).message
        = "Successfully executed " ++ tool_name :=
  ⟨rfl, rfl, rfl, rfl⟩

/-- C3: the transcript is append-only and role-tagged — every `chat`
call appends exactly two entries, first the `user` entry with the user
message, then the `assistant` entry with the model response content, and
the prior entries survive unchanged as the front of the new history. -/
theorem chat_transcript_append_only (a : RealtorAgent) (msg : String)
    (ctx : Option Json) (remote : Request → ModelResponse) (clock : Nat → String) :
    (a.chat msg ctx remote clock).agent.conversation_history
      = a.conversation_history
        ++ [{ role := "user", content := .str msg },
            { role := "assistant",
              content := .blocks (remote (chatRequest a msg clock)).content }]
    ∧ ((a.chat msg ctx remote clock).agent.conversation_history).take
        a.conversation_history.length = a.conversation_history := by
  have h1 : (a.chat msg ctx remote clock).agent.conversation_history
      = a.conversation_history
        ++ [{ role := "user", content := .str msg },
            { role := "assistant",
              content := .blocks (remote (chatRequest a msg clock)).content }] := by
    simp [RealtorAgent.chat, chatRequest]
  exact ⟨h1, by rw [h1, List.take_left]⟩

/-- C4: the tool-call records `{tool_use_id, name, result}` built during
one `chat` exchange live only in the returned dictionary — the agent
state after the call is the old state with just the two transcript
entries appended (no field retains any record), and the records are
handed to the caller in `tool_results`. -/
theorem chat_tool_records_ephemeral (a : RealtorAgent) (msg : String)
    (ctx : Option Json) (remote : Request → ModelResponse) (clock : Nat → String) :
    (a.chat msg ctx remote clock).agent
      = { a with
          conversation_history :=
            a.conversation_history
              ++ [{ role := "user", content := .str msg },
                  { role := "assistant",
                    content := .blocks (remote (chatRequest a msg clock)).content }] }
    ∧ (a.chat msg ctx remote clock).ret.tool_results
        = runTools ctx clock 1
            ((remote (chatRequest a msg clock)).content.filterMap toolUseOf) := by
  constructor
  · cases a
    simp [RealtorAgent.chat, chatRequest]
  · simp [RealtorAgent.chat, processBlocks_eq]

/-- C5: every `chat` call performs exactly one outbound model call,
followed by exactly one tool-stub invocation per `tool_use` block of the
response — the whole trace is the model call and then the tool
executions in block order, and nothing else. -/
theorem chat_single_model_call (a : RealtorAgent) (msg : String)
    (ctx : Option Json) (remote : Request → ModelResponse) (clock : Nat → String) :
    (a.chat msg ctx remote clock).calls
      = Event.modelCall (chatRequest a msg clock)
        :: ((remote (chatRequest a msg clock)).content.filterMap toolUseOf).map
             (fun tu => Event.toolExec tu.name tu.input)
    ∧ ((a.chat msg ctx remote clock).calls).countP isModelCall = 1
    ∧ ((a.chat msg ctx remote clock).calls).countP isToolExec
        = (remote (chatRequest a msg clock)).content.countP isToolUseBlock := by
  have h1 : (a.chat msg ctx remote clock).calls
      = Event.modelCall (chatRequest a msg clock)
        :: ((remote (chatRequest a msg clock)).content.filterMap toolUseOf).map
             (fun tu => Event.toolExec tu.name tu.input) := by
    simp [RealtorAgent.chat, processBlocks_eq]
  refine ⟨h1, ?_, ?_⟩
  · rw [h1]
    simp [List.countP_cons, isModelCall, countP_isModelCall_toolExecs]
  · rw [h1, List.countP_cons, countP_isToolExec_toolExecs, length_filterMap_toolUseOf]
    simp [isToolExec]

/-- C6: the request sent to the remote API carries the system prompt,
the full accumulated history (every earlier entry plus the just-appended
user message, nothing omitted), the complete registered tool catalog,
and the fixed model name and token budget. -/
theorem chat_request_contents (a : RealtorAgent) (msg : String)
    (ctx : Option Json) (remote : Request → ModelResponse) (clock : Nat → String) :
    (a.chat msg ctx remote clock).calls.head?
      = some (Event.modelCall (chatRequest a msg clock))
    ∧ (chatRequest a msg clock).system = systemPrompt (clock 0)
    ∧ (chatRequest a msg clock).messages
        = a.conversation_history ++ [{ role := "user", content := .str msg }]
    ∧ (chatRequest a msg clock).tools = a.tools
    ∧ (chatRequest a msg clock).model = "claude-sonnet-4-20250514"
    ∧ (chatRequest a msg clock).max_tokens = 4096 :=
  ⟨rfl, rfl, rfl, rfl, rfl, rfl⟩

/-- C7: every entry of the registered catalog is a valid tool schema —
a name, a description, an `input_schema` of type `object`, every
`required` list (at the top level and in every nested object that
declares one) naming only keys of the matching `properties` map, and
every `enum` a non-empty list of distinct strings. -/
theorem registered_tool_schemas_valid : registerTools.all toolValid = true := by
  decide

/-- C8: the registry is static — construction sets `self.tools` to the
fixed catalog of fourteen tools with pairwise-distinct names, and `chat`
(whose stub `_execute_tool` never touches the agent at all) leaves both
`self.tools` and `self.client` unchanged. -/
theorem tool_registry_static :
    registerTools.length = 14
    ∧ registeredToolNames.length = 14
    ∧ registeredToolNames.Nodup
    ∧ (∀ key, (RealtorAgent.init key).tools = registerTools
        ∧ (RealtorAgent.init key).client = { api_key := key })
    ∧ (∀ (a : RealtorAgent) (msg : String) (ctx : Option Json)
         (remote : Request → ModelResponse) (clock : Nat → String),
        (a.chat msg ctx remote clock).agent.tools = a.tools
        ∧ (a.chat msg ctx remote clock).agent.client = a.client) :=
  ⟨by decide, by decide, by decide,
    fun _ => ⟨rfl, rfl⟩,
    fun _ _ _ _ _ => ⟨rfl, rfl⟩⟩

/-- C9: `_execute_tool` validates nothing — for a name outside the
registered catalog and an arbitrary input (for instance one violating
every declared schema) it still returns the full success record, which
coincides with the record for any registered name on every field that
does not merely echo the name. -/
theorem execute_tool_no_validation (good bad : String) (tool_input : Json)
    (context : Option Json) (now : String)
    (hg : good ∈ registeredToolNames) (hb : bad ∉ registeredToolNames) :
    (executeTool bad tool_input context now).success = true
    ∧ executeTool bad tool_input context now
        = { success := true, tool := bad, input := tool_input,
            message := "Successfully executed " ++ bad, timestamp := now }
    ∧ (executeTool bad tool_input context now).success
        = (executeTool good tool_input context now).success
    ∧ (executeTool bad tool_input context now).input
        = (executeTool good tool_input context now).input
    ∧ (executeTool bad tool_input context now).timestamp
        = (executeTool good tool_input context now).timestamp :=
  ⟨rfl, rfl, rfl, rfl, rfl⟩

/-- C9 witness: `teleport_lead` is not a registered tool and `null` is
not an object input, yet the stub reports success and echoes both. -/
theorem execute_tool_no_validation_witness :
    "qualify_lead" ∈ registeredToolNames
    ∧ "teleport_lead" ∉ registeredToolNames
    ∧ ((executeTool "teleport_lead" Json.null none "2026-10-12T00:00:00").success = true
        ∧ executeTool "teleport_lead" Json.null none "2026-10-12T00:00:00"
            = { success := true, tool := "teleport_lead", input := Json.null,
                message := "Successfully executed " ++ "teleport_lead",
                timestamp := "2026-10-12T00:00:00" }
        ∧ (executeTool "teleport_lead" Json.null none "2026-10-12T00:00:00").success
            = (executeTool "qualify_lead" Json.null none "2026-10-12T00:00:00").success
        ∧ (executeTool "teleport_lead" Json.null none "2026-10-12T00:00:00").input
            = (executeTool "qualify_lead" Json.null none "2026-10-12T00:00:00").input
        ∧ (executeTool "teleport_lead" Json.null none "2026-10-12T00:00:00").timestamp
            = (executeTool "qualify_lead" Json.null none "2026-10-12T00:00:00").timestamp) :=
  ⟨by decide, by decide,
    execute_tool_no_validation "qualify_lead" "teleport_lead" Json.null none
      "2026-10-12T00:00:00" (by decide) (by decide)⟩

/-- C10: in the returned dictionary, `tool_uses` lists the `tool_use`
blocks in response order, `tool_results` has the same length, the i-th
result carries the i-th use's id and name, and `message` is the
concatenation of the text blocks in response order. -/
theorem chat_return_pairing (a : RealtorAgent) (msg : String)
    (ctx : Option Json) (remote : Request → ModelResponse) (clock : Nat → String) :
    (a.chat msg ctx remote clock).ret.tool_uses
      = (remote (chatRequest a msg clock)).content.filterMap toolUseOf
    ∧ (a.chat msg ctx remote clock).ret.tool_results.length
        = (a.chat msg ctx remote clock).ret.tool_uses.length
    ∧ (a.chat msg ctx remote clock).ret.tool_results.map (fun r => r.tool_use_id)
        = (a.chat msg ctx remote clock).ret.tool_uses.map (fun tu => tu.id)
    ∧ (a.chat msg ctx remote clock).ret.tool_results.map (fun r => r.name)
        = (a.chat msg ctx remote clock).ret.tool_uses.map (fun tu => tu.name)
    ∧ (a.chat msg ctx remote clock).ret.message
        = textConcat (remote (chatRequest a msg clock)).content := by
  refine ⟨?_, ?_, ?_, ?_, ?_⟩
  · simp [RealtorAgent.chat, processBlocks_eq]
  · simp [RealtorAgent.chat, processBlocks_eq, runTools_length]
  · simp [RealtorAgent.chat, processBlocks_eq, runTools_map_id]
  · simp [RealtorAgent.chat, processBlocks_eq, runTools_map_name]
  · simp [RealtorAgent.chat, processBlocks_eq]

end RealtorSuite
